import Mathlib

/-!
Verification development for the TextPress importer/exporter plugin
(`textpress_importer/__init__.py`, `textpress_importer/shared/textpress_exporter.py`).

The XML wire format is modelled at tree level: an element is a `Node` with a
fully-qualified (Clark-notation) tag, an attribute mapping, optional text and
ordered children, exactly as lxml / ElementTree present parsed elements to the
Python code.  Serialisation + reparse is the identity on this representation
(the exporter's hand-written preamble is carried as a structured chunk whose
values round-trip through XML escaping), so the encoder is modelled as
producing a sequence of chunks that an XML parser would assemble back into the
feed tree consumed by the importer.  Python exceptions are modelled by the
`PyError` type and fallible code returns `Except PyError`.
-/

/-- Atom namespace URI (`ATOM_NS` in both source files). -/
def ATOM_NS : String := "http://www.w3.org/2005/Atom"

/-- XML namespace URI (`XML_NS`, imported from `zine.zxa` by the importer). -/
def XML_NS : String := "http://www.w3.org/XML/1998/namespace"

/-- TextPress extension namespace URI (`TEXTPRESS_NS`). -/
def TEXTPRESS_NS : String := "http://textpress.pocoo.org/"

/-- `TEXTPRESS_TAG_URI = TEXTPRESS_NS + '#tag-scheme'`. -/
def TEXTPRESS_TAG_URI : String := TEXTPRESS_NS ++ "#tag-scheme"

/-- `TEXTPRESS_CATEGORY_URI = TEXTPRESS_NS + '#category-scheme'`. -/
def TEXTPRESS_CATEGORY_URI : String := TEXTPRESS_NS ++ "#category-scheme"

/-- Clark notation for a namespace-qualified name, `'\x7b%s\x7d%s' % (ns, tag)`:
this is how lxml/ElementTree spell qualified tags and attribute keys, and how the
`Namespace`/`_ElementHelper` getattr tricks build them. -/
def clark (ns localName : String) : String := "\x7b" ++ ns ++ "\x7d" ++ localName

def atomTag (t : String) : String := clark ATOM_NS t
def tpTag (t : String) : String := clark TEXTPRESS_NS t
def xmlLangAttr : String := clark XML_NS "lang"

/-- An XML element as both lxml (importer side) and ElementTree (exporter side)
expose it: qualified tag, attribute mapping, optional text, ordered children. -/
structure Node where
  tag : String
  attrib : List (String × String)
  text : Option String
  children : List Node
deriving Repr

mutual

/-- Boolean structural equality on elements. -/
def Node.beq : Node → Node → Bool
  | ⟨t, xa, tx, c⟩, ⟨t', xa', tx', c'⟩ =>
    t == t' && xa == xa' && tx == tx' && Node.beqList c c'

/-- Boolean structural equality on child lists. -/
def Node.beqList : List Node → List Node → Bool
  | [], [] => true
  | x :: xs, y :: ys => Node.beq x y && Node.beqList xs ys
  | _, _ => false

end

mutual

theorem Node.beq_iff : ∀ (a b : Node), (Node.beq a b = true) ↔ a = b
  | ⟨t, xa, tx, c⟩, ⟨t', xa', tx', c'⟩ => by
    simp only [Node.beq, Bool.and_eq_true, beq_iff_eq, Node.mk.injEq]
    rw [Node.beqList_iff c c']
    tauto

theorem Node.beqList_iff : ∀ (c d : List Node), (Node.beqList c d = true) ↔ c = d
  | [], [] => by simp [Node.beqList]
  | [], _ :: _ => by simp [Node.beqList]
  | _ :: _, [] => by simp [Node.beqList]
  | x :: xs, y :: ys => by
    simp only [Node.beqList, Bool.and_eq_true, List.cons.injEq]
    rw [Node.beq_iff x y, Node.beqList_iff xs ys]

end

instance : DecidableEq Node := fun a b => decidable_of_iff _ (Node.beq_iff a b)

example : (Node.mk "a" [] none [Node.mk "b" [] none []]) ≠ Node.mk "a" [] none [] := by
  decide

/-- `element.attrib.get(key)`. -/
def attribGet (n : Node) (k : String) : Option String :=
  (n.attrib.find? (fun p => p.1 == k)).map (fun p => p.2)

/-- `element.find(tag)` for a plain qualified-tag path: first direct child with
that tag, as ElementTree/lxml `find` behaves on a single-step path. -/
def findChild (n : Node) (t : String) : Option Node :=
  n.children.find? (fun c => c.tag == t)

/-- `element.findall(tag)` for a plain qualified-tag path: all direct children
with that tag, in document order. -/
def findall (n : Node) (t : String) : List Node :=
  n.children.filter (fun c => c.tag == t)

/-- `element.findtext(tag)`: text of the first matching child, `None` when no
child matches, and the empty string when the child exists without text content
(ElementTree/lxml `findtext` semantics). -/
def findtext (n : Node) (t : String) : Option String :=
  (findChild n t).map (fun c => c.text.getD "")

/-- Python exceptions observable in this plugin's code paths. -/
inductive PyError where
  | feedImportError (msg : String)
  | keyError (key : String)
  | valueError (msg : String)
  | typeError (msg : String)
  | attributeError (msg : String)
  | nameError (msg : String)
  | indexError
deriving Repr, DecidableEq

/-- Decimal digit value of a character. -/
def digitVal (c : Char) : Option Nat :=
  if 48 ≤ c.toNat ∧ c.toNat ≤ 57 then some (c.toNat - 48) else none

/-- Parse a non-empty all-digit character list as a `Nat`. -/
def digitsToNat (cs : List Char) : Option Nat :=
  if cs.isEmpty then none
  else cs.foldl (fun acc c =>
    match acc, digitVal c with
    | some a, some d => some (a * 10 + d)
    | _, _ => none) (some 0)

/-- Python `str.strip()` whitespace trimming. -/
def pyStrip (s : String) : String :=
  String.mk (((s.data.dropWhile (fun c => c.isWhitespace)).reverse.dropWhile
    (fun c => c.isWhitespace)).reverse)

/-- Parse an optionally-signed decimal literal. -/
def strToInt (cs : List Char) : Option Int :=
  match cs with
  | '-' :: rest => (digitsToNat rest).map (fun n => -(n : Int))
  | _ => (digitsToNat cs).map (fun n => (n : Int))

/-- Python `int(s)` on a string: strips whitespace and accepts a signed
decimal literal; `int('')` and any other non-numeral raise `ValueError`,
exactly the case the importer trips over. -/
def pyInt (s : String) : Except PyError Int :=
  match strToInt (pyStrip s).data with
  | some n => .ok n
  | none => .error (.valueError ("invalid literal for int() with base 10: " ++ s))

/-- Python `int(x)` where `x` came from `findtext` (may be `None`):
`int(None)` raises `TypeError`. -/
def pyIntOpt (v : Option String) : Except PyError Int :=
  match v with
  | none => .error (.typeError "int() argument must be a string or a number, not NoneType")
  | some s => pyInt s

/-- `_to_bool` from `textpress_importer/__init__.py` applied to a `findtext`
result: `None.strip()` raises `AttributeError`; otherwise strip and accept
exactly `yes`/`no`. -/
def to_bool (v : Option String) : Except PyError Bool :=
  match v with
  | none => .error (.attributeError "NoneType object has no attribute strip")
  | some s =>
    let t := pyStrip s
    if t = "yes" then .ok true
    else if t = "no" then .ok false
    else .error (.valueError "invalid boolean literal, expected yes/no")

/-- Python truthiness of an optional string: `None` and `''` are falsy. -/
def optTruthy (v : Option String) : Bool :=
  match v with
  | none => false
  | some s => s ≠ ""

/-- Timestamps are abstracted to `Nat` instants.  `format_iso8601` /
`parse_iso8601` (source: `strftime('%Y-%m-%dT%H:%M:%SZ')` in the exporter and
`zine.utils.dates.parse_iso8601` in the importer) are modelled as the codec
pair on this abstraction; no claim depends on the textual calendar layout,
only on which instant is encoded and that parsing inverts formatting. -/
def format_iso8601 (d : Nat) : String := toString d ++ "Z"

/-- Modelled from the spec: `parse_iso8601` decodes an ISO-8601 UTC timestamp
(`zine.utils.dates`, not under `src/`); called with `None` (absent element) it
raises, and malformed text raises `ValueError`. -/
def parse_iso8601 (v : Option String) : Except PyError Nat :=
  match v with
  | none => .error (.typeError "parse_iso8601 of None")
  | some s =>
    match s.data.reverse with
    | 'Z' :: rest =>
      match digitsToNat rest.reverse with
      | some n => .ok n
      | none => .error (.valueError "invalid iso8601 timestamp")
    | _ => .error (.valueError "invalid iso8601 timestamp")

/-- A pickled mapping as the exporter produces it: string keys to string-valued
payload fields (`extra`/`raw_body`/`raw_intro`/`parser_data` are opaque blobs
modelled as strings).  `.get(key, default)` is Python `dict.get`. -/
structure PickleDict where
  entries : List (String × String)
deriving Repr, DecidableEq

def PickleDict.get (d : PickleDict) (k default : String) : String :=
  match d.entries.find? (fun p => p.1 == k) with
  | some p => p.2
  | none => default

/-- Length-prefixed string cell of the payload codec. -/
def encStr (s : String) : String := toString s.length ++ ":" ++ s

/-- Modelled from the spec: the opaque payload codec
(`cPickle.dumps(...).encode('base64')` on the exporter, inverted by
`loads(value.decode('base64'))` on the importer; both external library
functions).  The spec treats the payload as an opaque blob embedded in a text
node, so any injective, parseable encoding of the key/value record is a
faithful model; a netstring-style encoding is used.  Key order in the encoded
text is the record order (CPython serialises dict hash order; the decoder only
ever calls `.get`, which is order-insensitive). -/
def pickleDumps (d : PickleDict) : String :=
  toString d.entries.length ++ ";" ++
    String.join (d.entries.map (fun p => encStr p.1 ++ encStr p.2))

/-- Read a decimal number from the front of the character stream. -/
def readNat (cs : List Char) : Option (Nat × List Char) :=
  let digits := cs.takeWhile (fun c => c.isDigit)
  let rest := cs.dropWhile (fun c => c.isDigit)
  match digitsToNat digits with
  | some n => some (n, rest)
  | none => none

/-- Read one length-prefixed string cell. -/
def readNet (cs : List Char) : Option (String × List Char) := do
  let (n, rest) ← readNat cs
  match rest with
  | ':' :: rest2 =>
    if n ≤ rest2.length then some (String.mk (rest2.take n), rest2.drop n)
    else none
  | _ => none

/-- Read `n` key/value cell pairs; trailing garbage is an unpickling error. -/
def readPairs : Nat → List Char → Option (List (String × String))
  | 0, [] => some []
  | 0, _ :: _ => none
  | Nat.succ k, cs => do
    let (a, cs1) ← readNet cs
    let (b, cs2) ← readNet cs1
    let rest ← readPairs k cs2
    some ((a, b) :: rest)

/-- Modelled from the spec: inverse of `pickleDumps` (the importer's
`loads(value.decode('base64'))`); malformed input raises, matching
"unparsable opaque payload is a decode error". -/
def pickleLoads (s : String) : Except PyError PickleDict :=
  match readNat s.data with
  | some (n, ';' :: rest) =>
    match readPairs n rest with
    | some l => .ok ⟨l⟩
    | none => .error (.valueError "insecure string pickle")
  | _ => .error (.valueError "insecure string pickle")

/-- `_pickle` from `textpress_importer/__init__.py`: falsy input (`None` or
`''`) yields `None`, otherwise base64-decode + unpickle. -/
def pickleOpt (v : Option String) : Except PyError (Option PickleDict) :=
  match v with
  | none => .ok none
  | some s =>
    if s = "" then .ok none
    else do
      let d ← pickleLoads s
      .ok (some d)

/-- `_parser_data` from `textpress_importer/__init__.py`: falsy input yields
`None`; otherwise `load_parser_data(value.decode('base64'))` — an external
zine decoder modelled as an opaque passthrough of the blob. -/
def parser_data_of (v : Option String) : Option String :=
  match v with
  | none => none
  | some s => if s = "" then none else some s

instance {ε α : Type} [DecidableEq ε] [DecidableEq α] : DecidableEq (Except ε α) :=
  fun x y =>
    match x, y with
    | .ok a, .ok b =>
      decidable_of_iff (a = b) ⟨fun h => by rw [h], fun h => by injection h⟩
    | .error a, .error b =>
      decidable_of_iff (a = b) ⟨fun h => by rw [h], fun h => by injection h⟩
    | .ok _, .error _ => isFalse (fun h => by injection h)
    | .error _, .ok _ => isFalse (fun h => by injection h)

example : pickleLoads (pickleDumps ⟨[("raw_body", "x"), ("parser_data", "p:d")]⟩) =
    .ok ⟨[("raw_body", "x"), ("parser_data", "p:d")]⟩ := by decide

/-- CPython 2 string hash (the `status = x ^= len` variant of the djb-style
loop in `stringobject.c`): `x = ord(s[0]) << 7`, then for every character
`x = (1000003 * x) XOR ord(c)`, finally `x XOR= len(s)`, all in machine
words.  Truncation width does not affect the low bits used for small dict
slot selection.  This pins down the iteration order of the exporter's
`self._dependencies` dict (a Python 2 hash dict keyed by `'%x'` strings).  -/
def py2StringHash (s : String) : Nat :=
  match s.data with
  | [] => 0
  | c0 :: _ =>
    let M := 2 ^ 64
    let x0 := (c0.toNat <<< 7) % M
    let x := s.data.foldl (fun x c => ((1000003 * x) ^^^ c.toNat) % M) x0
    (x ^^^ s.length) % M

/-- Slot of a key in an 8-slot CPython 2 dict table. -/
def py2Slot (s : String) : Nat := py2StringHash s % 8

/-- `dict.itervalues()` order of a small CPython 2 dict: for tables that stay
within the initial 8 slots (at most 5 entries before resize) and whose keys
occupy distinct slots — exactly the regime of the dependency tables in the
claims — iteration visits slots in ascending order.  Modelled as a stable
sort of the insertion-ordered table by slot. -/
def py2DictValues (table : List (String × Node)) : List Node :=
  (table.insertionSort (fun a b => py2Slot a.1 ≤ py2Slot b.1)).map (fun p => p.2)

example : py2Slot "1" = 0 ∧ py2Slot "2" = 3 ∧ py2Slot "3" = 2 := by decide

/-!
Exporter model — `textpress_importer/shared/textpress_exporter.py` (`Writer`).
Domain records carry exactly the fields the exporter reads off the external
TextPress ORM objects (spec §6 "Originating store"); rendered bodies arrive
pre-rendered (`post.body.render()` is modelled as the stored rendered string).
-/

/-- A TextPress user as read by `Writer._register_user` / `_dump_post`. -/
structure WUser where
  userId : Nat
  username : String
  role : Nat
  pwHash : String
  displayName : String
  firstName : String
  lastName : String
  description : String
  email : String
  isManager : Bool
deriving Repr, DecidableEq

/-- A comment as read by `Writer._dump_post` (the `for c in post.comments`
loop). -/
structure WComment where
  commentId : Nat
  author : String
  email : Option String
  www : Option String
  pubDate : Nat
  blocked : Bool
  isPingback : Bool
  blockedMsg : Option String
  parentId : Option Nat
  status : Nat
  submitterIp : Option String
  rawBody : String
  parserData : String
deriving Repr, DecidableEq

/-- A tag as read by the category loop of `Writer._dump_post`. -/
structure WTag where
  slug : String
  name : String
  description : String
deriving Repr, DecidableEq

/-- A post as read by `Writer._dump_post`.  `bodyRendered`/`introRendered`
are `post.body.render()` / `post.intro.render()`; `intro` truthiness gates
the summary element. -/
structure WPost where
  title : String
  uid : String
  lastUpdate : Nat
  pubDate : Nat
  author : WUser
  slug : String
  postId : Nat
  commentsEnabled : Bool
  pingsEnabled : Bool
  status : Nat
  bodyRendered : String
  intro : Option String
  extra : String
  rawBody : String
  rawIntro : String
  parserData : String
  tags : List WTag
  comments : List WComment
deriving Repr, DecidableEq

/-- A page as read by `Writer._dump_page`. -/
structure WPage where
  pageId : Nat
  title : String
  key : String
  bodyRendered : String
  extra : String
  rawBody : String
deriving Repr, DecidableEq

/-- An export participant (`Participant` in the exporter).  The base class
defines `before_dump`, `dump_data`, `process_post`, `process_user` — note:
no `setup`.  `definesSetup` records whether a concrete participant subclass
added a `setup` method of its own; `dumpData` is its `dump_data` result.
The `process_user`/`process_post` hooks are modelled as the base-class
defaults (no-ops), which is all the claims exercise. -/
structure Participant where
  definesSetup : Bool
  dumpData : Option Node
deriving Repr, DecidableEq

/-- Everything `Writer.__init__`/`Writer._generate` read from the application
and the external store: the config mapping (iterated in stored order for the
configuration block), exporter version, all users (`User.objects.all()`
order), posts as the store returns them (`Post.objects.order_by(
Post.last_update.desc())`, newest first), the optional page list (`none`
models the `'pages' in self.app.plugins` test failing, in which case the
local variable `pages` is never bound), participants, the wall clock at
export start, and the three category options of `Writer.__init__`. -/
structure GenInput where
  cfgItems : List (String × String)
  version : String
  users : List WUser
  posts : List WPost
  pages : Option (List WPage)
  participants : List Participant
  now : Nat
  description_to_category : Bool
  tags_to_categories : Bool
  keep_as_tags : List String
deriving Repr, DecidableEq

/-- Mutable writer state: `self._dependencies` (dependency table, in
registration order — iteration order on flush is `py2DictValues`),
`self.users` (user id → canonical node) and `self.db_users`. -/
structure WriterSt where
  deps : List (String × Node)
  users : List (Nat × Node)
  dbUsers : List (Nat × WUser)
deriving Repr, DecidableEq

def initWS : WriterSt := ⟨[], [], []⟩

/-- `self.app.cfg[key]`: missing key raises `KeyError`. -/
def cfgGet (items : List (String × String)) (k : String) : Except PyError String :=
  match items.find? (fun p => p.1 == k) with
  | some p => .ok p.2
  | none => .error (.keyError k)

/-- Modelled from the spec: `build_tag_uri(app, last_update, 'tpxa_export',
'full')` (external `textpress.utils`) — "a tag-URI derived from the blog's
base URL and the latest-update timestamp, scheme fragment
`tpxa_export`/`full`". -/
def build_tag_uri (blogUrl : String) (lastUpdate : Nat) (kind frag : String) : String :=
  "tag:" ++ blogUrl ++ ",ts-" ++ toString lastUpdate ++ ":" ++ kind ++ "/" ++ frag

/-- Modelled from the spec: `url_for(post, _external=True)` (external
routing) — the canonical external URL of a content item, derived from its
slug/key. -/
def url_for (slug : String) : String := "http://blog.example/" ++ slug

/-- Modelled from the spec: `.encode('base64')` on the password hash — an
external, injective text encoding carried opaquely (the importer passes the
encoded text straight into the decoded author's pw-hash field). -/
def b64encode (s : String) : String := "b64:" ++ s

/-- `self.tp('tag', text=...)`-style element with plain text. -/
def mkTextEl (t : String) (s : String) : Node := ⟨t, [], some s, []⟩

/-- Element whose `text` keyword may be `None` (the `_ElementHelper` only
assigns `.text` when the value is not `None`). -/
def mkOptTextEl (t : String) (s : Option String) : Node := ⟨t, [], s, []⟩

/-- Python `'%x' % (len(self._dependencies) + 1)`. -/
def newDependencyId (deps : List (String × Node)) : String :=
  String.mk (Nat.toDigits 16 (deps.length + 1))

/-- `Writer._register_user` (which calls `Writer.new_dependency(self.tp.user)`):
allocate the next hex id, create the canonical `tp:user` node stamped with the
`tp:dependency` attribute, populate its children in source order, and record
it in `_dependencies`, `users` and `db_users`.  The participant
`process_user` hooks are the modelled no-op defaults. -/
def registerUser (ws : WriterSt) (u : WUser) : WriterSt :=
  let id := newDependencyId ws.deps
  let node : Node := ⟨tpTag "user", [(tpTag "dependency", id)], none,
    [ mkTextEl (tpTag "username") u.username,
      mkTextEl (tpTag "role") (toString u.role),
      mkTextEl (tpTag "pw_hash") (b64encode u.pwHash),
      mkTextEl (tpTag "display_name") u.displayName,
      mkTextEl (tpTag "first_name") u.firstName,
      mkTextEl (tpTag "last_name") u.lastName,
      mkTextEl (tpTag "description") u.description ]⟩
  { deps := ws.deps ++ [(id, node)],
    users := ws.users ++ [(u.userId, node)],
    dbUsers := ws.dbUsers ++ [(u.userId, u)] }

/-- The category attribute mapping built by the tag loop of
`Writer._dump_post` (lines 328–336): scheme selection is
`((tag.description and self.description_to_category) or
self.tags_to_categories) and tag.slug not in self.keep_as_tags`, and a
`label` is added when slug and name differ. -/
def categoryAttrib (g : GenInput) (tag : WTag) : List (String × String) :=
  let base :=
    if ((tag.description ≠ "" && g.description_to_category) || g.tags_to_categories)
        && !(g.keep_as_tags.contains tag.slug) then
      [("term", tag.slug), ("scheme", TEXTPRESS_CATEGORY_URI)]
    else
      [("term", tag.slug), ("scheme", TEXTPRESS_TAG_URI)]
  if tag.slug ≠ tag.name then base ++ [("label", tag.name)] else base

/-- One `tp:comment` subtree of `Writer._dump_post` (the `for c in
post.comments` loop), children in source order. -/
def dumpComment (c : WComment) : Node :=
  ⟨tpTag "comment", [], none,
    [ mkTextEl (tpTag "id") (toString c.commentId),
      ⟨tpTag "author", [], none,
        [ mkTextEl (tpTag "name") c.author,
          mkOptTextEl (tpTag "email") c.email,
          mkOptTextEl (tpTag "uri") c.www ]⟩,
      mkTextEl (tpTag "published") (format_iso8601 c.pubDate),
      mkTextEl (tpTag "blocked") (if c.blocked then "yes" else "no"),
      mkTextEl (tpTag "is_pingback") (if c.isPingback then "yes" else "no"),
      mkTextEl (tpTag "blocked_msg") (c.blockedMsg.getD ""),
      mkTextEl (tpTag "parent")
        (match c.parentId with
         | some pid => toString pid
         | none => ""),
      mkTextEl (tpTag "status") (toString c.status),
      mkTextEl (tpTag "submitter_ip")
        (if optTruthy c.submitterIp then c.submitterIp.getD "" else "0.0.0.0"),
      mkTextEl (tpTag "data")
        (pickleDumps ⟨[("raw_body", c.rawBody), ("parser_data", c.parserData)]⟩) ]⟩

/-- `Writer._dump_post` (lines 266–340): build the Atom `entry` subtree for a
post.  `self.users[post.author.user_id]` raises `KeyError` for an
unregistered author; the entry children appear in source order; participant
`process_post` hooks are the modelled no-op defaults. -/
def dump_post (g : GenInput) (ws : WriterSt) (p : WPost) : Except PyError Node := do
  let url := url_for p.slug
  let userNode ←
    match ws.users.find? (fun e => e.1 == p.author.userId) with
    | some e => Except.ok e.2
    | none => Except.error (.keyError (toString p.author.userId))
  let depId ←
    match attribGet userNode (tpTag "dependency") with
    | some v => Except.ok v
    | none => Except.error (.keyError (tpTag "dependency"))
  let authorNode : Node := ⟨atomTag "author", [(tpTag "dependency", depId)], none,
    [ mkTextEl (atomTag "name") p.author.displayName,
      mkTextEl (atomTag "email") p.author.email ]⟩
  Except.ok ⟨atomTag "entry", [("xml:base", url)], none,
    ([ ⟨atomTag "title", [("type", "text")], some p.title, []⟩,
       mkTextEl (atomTag "id") p.uid,
       mkTextEl (atomTag "updated") (format_iso8601 p.lastUpdate),
       mkTextEl (atomTag "published") (format_iso8601 p.pubDate),
       ⟨atomTag "link", [("href", url)], none, []⟩,
       authorNode,
       mkTextEl (tpTag "slug") p.slug,
       mkTextEl (tpTag "id") (toString p.postId),
       mkTextEl (tpTag "comments_enabled") (if p.commentsEnabled then "yes" else "no"),
       mkTextEl (tpTag "pings_enabled") (if p.pingsEnabled then "yes" else "no"),
       mkTextEl (tpTag "status") (toString p.status),
       ⟨atomTag "content", [("type", "html")], some p.bodyRendered, []⟩ ]
     ++ (if optTruthy p.intro then
          [⟨atomTag "summary", [("type", "html")], some (p.intro.getD ""), []⟩]
        else [])
     ++ [ mkTextEl (tpTag "content_type") "entry",
          mkTextEl (tpTag "data") (pickleDumps ⟨[
            ("extra", p.extra),
            ("raw_body", p.rawBody),
            ("raw_intro", p.rawIntro),
            ("parser_data", p.parserData)]⟩) ]
     ++ p.comments.map dumpComment
     ++ p.tags.map (fun t => ⟨atomTag "category", categoryAttrib g t, none, []⟩))⟩

/-- `Writer._dump_page`: the fake-author page entry.  The manager search
`[u for u in self.db_users if self.db_users[u].is_manager][0]` iterates the
`db_users` dict (small-int keys; modelled in registration order, which is
ascending user id for the inputs here) and raises `IndexError` when no
manager exists. -/
def dump_page (g : GenInput) (ws : WriterSt) (pg : WPage) : Except PyError Node := do
  let managers := ws.dbUsers.filter (fun e => e.2.isManager)
  let uid ←
    match managers with
    | [] => Except.error PyError.indexError
    | m :: _ => Except.ok m.1
  let userNode ←
    match ws.users.find? (fun e => e.1 == uid) with
    | some e => Except.ok e.2
    | none => Except.error (.keyError (toString uid))
  let dbUser ←
    match ws.dbUsers.find? (fun e => e.1 == uid) with
    | some e => Except.ok e.2
    | none => Except.error (.keyError (toString uid))
  let depId ←
    match attribGet userNode (tpTag "dependency") with
    | some v => Except.ok v
    | none => Except.error (.keyError (tpTag "dependency"))
  let url := url_for pg.key
  Except.ok ⟨atomTag "entry", [("xml:base", url)], none,
    [ ⟨atomTag "title", [("type", "text")], some pg.title, []⟩,
      mkTextEl (atomTag "id") (toString pg.pageId),
      mkTextEl (atomTag "updated") (format_iso8601 g.now),
      mkTextEl (atomTag "published") (format_iso8601 g.now),
      ⟨atomTag "link", [("href", url)], none, []⟩,
      ⟨atomTag "author", [(tpTag "dependency", depId)], none,
        [ mkTextEl (atomTag "name") dbUser.displayName,
          mkTextEl (atomTag "email") dbUser.email ]⟩,
      mkTextEl (tpTag "slug") pg.key,
      mkTextEl (tpTag "id") (toString pg.pageId),
      ⟨atomTag "content", [("type", "html")], some pg.bodyRendered, []⟩,
      mkTextEl (tpTag "content_type") "page",
      mkTextEl (tpTag "data") (pickleDumps ⟨[
        ("extra", pg.extra),
        ("raw_body", pg.rawBody)]⟩) ]⟩

/-- One produced chunk of `Writer._generate`.  `preamble` carries the raw
values interpolated (escaped) into `XML_PREAMBLE` — XML escaping is inverted
by any conforming parser, so the chunk carries the pre-escape values; the
fixed markup (`generator` element etc.) is reinstated by `assembleFeed`.
`depsOpen`/`depsClose` are the literal `<tp:dependencies>` /
`</tp:dependencies>` strings, `epilog` is `XML_EPILOG`, and `node` is one
`dump_node(...)` fragment (tree-level model of its serialised text). -/
inductive Chunk where
  | preamble (feedId title subtitle blogUrl updated version : String)
  | node (n : Node)
  | depsOpen
  | depsClose
  | epilog
deriving Repr, DecidableEq

/-- The iterator prologue of `Writer._generate` (lines 170–189): posts and
pages are advanced once inside one shared `try`, and `StopIteration` from
either advance is caught by the single handler.  Consequences modelled
exactly:
* no posts at all → `last_update = now`, both iterators keep their state
  (`pages` possibly still unbound when the plugin is inactive);
* posts present but the `pages` name unbound (plugin inactive) →
  `pages.next()` raises `NameError` before the first yield;
* posts present but zero pages → `pages.next()` raises `StopIteration`,
  the handler runs, `last_update = now`, and the already-consumed first
  (newest) post is lost because the `chain` re-attachment line is skipped;
* both present → `last_update` is the newest post's `last_update` and both
  iterators are re-chained intact. -/
def iterStart (g : GenInput) :
    Except PyError (Nat × List WPost × Option (List WPage)) :=
  match g.posts with
  | [] => .ok (g.now, [], g.pages)
  | p :: rest =>
    match g.pages with
    | none => .error (.nameError "name pages is not defined")
    | some [] => .ok (g.now, rest, some [])
    | some (q :: qs) => .ok (p.lastUpdate, p :: rest, some (q :: qs))

/-- The values interpolated into `XML_PREAMBLE` (config lookups may raise
`KeyError` before the first yield). -/
def preVals (g : GenInput) (lastUpdate : Nat) :
    Except PyError (String × String × String × String) := do
  let url ← cfgGet g.cfgItems "blog_url"
  let title ← cfgGet g.cfgItems "blog_title"
  let tagline ← cfgGet g.cfgItems "blog_tagline"
  .ok (build_tag_uri url lastUpdate "tpxa_export" "full", title, tagline, url)

/-- The `tp:configuration` block: one `tp:item` per config entry with a
`key` attribute and the value as text, in the config store's iteration
order. -/
def configNode (items : List (String × String)) : Node :=
  ⟨tpTag "configuration", [], none,
    items.map (fun kv => ⟨tpTag "item", [("key", kv.1)], some kv.2, []⟩)⟩

/-- Dump a list of items one `dump_node` chunk at a time; an exception stops
the generator, keeping the chunks yielded so far. -/
def dumpChunksList (f : α → Except PyError Node) :
    List α → List Chunk × Option PyError
  | [] => ([], none)
  | x :: xs =>
    match f x with
    | .error e => ([], some e)
    | .ok n =>
      let (cs, e) := dumpChunksList f xs
      (Chunk.node n :: cs, e)

/-- The trailing dependency flush of `Writer._generate` (lines 237–242):
emitted only when `self._dependencies` is non-empty, wrapped in the single
`tp:dependencies` container, nodes in `dict.itervalues()` order
(`py2DictValues`). -/
def depsChunks (deps : List (String × Node)) : List Chunk :=
  if deps.isEmpty then []
  else Chunk.depsOpen :: (py2DictValues deps).map Chunk.node ++ [Chunk.depsClose]

/-- The dependency table as registered by the user loop of
`Writer._generate` (`for user in User.objects.all(): self._register_user`). -/
def depTable (g : GenInput) : List (String × Node) :=
  (g.users.foldl registerUser initWS).deps

/-- `Writer._generate` as a whole: the chunk sequence it yields, paired with
the exception (if any) that terminated the generator.  Control flow in
source order: iterator prologue → feed id/preamble → participant `setup()`
loop (`AttributeError`: the `Participant` base class defines `before_dump`,
not `setup`) → configuration block → participant `dump_data` blocks → user
registration → post entries → page entries (`NameError` when the `pages`
name was never bound) → dependency flush → epilog. -/
def generate (g : GenInput) : List Chunk × Option PyError :=
  match iterStart g with
  | .error e => ([], some e)
  | .ok (lastUpdate, postsOut, pagesVar) =>
    match preVals g lastUpdate with
    | .error e => ([], some e)
    | .ok pv =>
      let preC := Chunk.preamble pv.1 pv.2.1 pv.2.2.1 pv.2.2.2
        (format_iso8601 lastUpdate) g.version
      match g.participants.find? (fun p => !p.definesSetup) with
      | some _ => ([preC], some (.attributeError "Participant instance has no attribute setup"))
      | none =>
        let chunks1 := preC :: Chunk.node (configNode g.cfgItems) ::
          (g.participants.filterMap (fun p => p.dumpData)).map Chunk.node
        let ws := g.users.foldl registerUser initWS
        let (postCs, postErr) := dumpChunksList (dump_post g ws) postsOut
        match postErr with
        | some e => (chunks1 ++ postCs, some e)
        | none =>
          match pagesVar with
          | none => (chunks1 ++ postCs, some (.nameError "name pages is not defined"))
          | some pgs =>
            let (pageCs, pageErr) := dumpChunksList (dump_page g ws) pgs
            match pageErr with
            | some e => (chunks1 ++ postCs ++ pageCs, some e)
            | none =>
              (chunks1 ++ postCs ++ pageCs ++ depsChunks ws.deps ++ [Chunk.epilog],
               none)

/-!
Document assembly: a conforming XML parser applied to the concatenated chunk
text produces the feed tree below (preamble fixed markup → feed header
children; each `node` chunk → one child; the `depsOpen … depsClose` bracket →
one `tp:dependencies` child holding the nodes between).  This is the tree
`etree.parse(fd).getroot()` hands to `parse_feed`.
-/

/-- Fixed feed-header children produced by `XML_PREAMBLE` interpolation. -/
def feedHead (feedId title subtitle blogUrl updated version : String) : List Node :=
  [ mkTextEl (atomTag "title") title,
    mkTextEl (atomTag "subtitle") subtitle,
    mkTextEl (atomTag "id") feedId,
    ⟨atomTag "generator", [("uri", "http://textpress.pocoo.org/"), ("version", version)],
      some "TextPress TPXA Export", []⟩,
    ⟨atomTag "link", [("href", blogUrl)], none, []⟩,
    mkTextEl (atomTag "updated") updated ]

/-- Fold the chunk stream into the root's child list; `depsAcc` is `some`
while inside the `tp:dependencies` bracket. -/
def assembleChunks : List Chunk → List Node → Option (List Node) → List Node
  | [], acc, none => acc
  | [], acc, some ds => acc ++ [⟨tpTag "dependencies", [], none, ds⟩]
  | c :: rest, acc, depsAcc =>
    match c, depsAcc with
    | .preamble fid t s u upd v, _ => assembleChunks rest (acc ++ feedHead fid t s u upd v) depsAcc
    | .node n, none => assembleChunks rest (acc ++ [n]) none
    | .node n, some ds => assembleChunks rest acc (some (ds ++ [n]))
    | .depsOpen, _ => assembleChunks rest acc (some [])
    | .depsClose, some ds =>
      assembleChunks rest (acc ++ [⟨tpTag "dependencies", [], none, ds⟩]) none
    | .depsClose, none => assembleChunks rest acc none
    | .epilog, _ => assembleChunks rest acc depsAcc

/-- The parsed document root (`a:feed`). -/
def assembleFeed (cs : List Chunk) : Node :=
  ⟨atomTag "feed", [], none, assembleChunks cs [] none⟩

/-!
Importer model — `textpress_importer/__init__.py` (`AtomParser` together with
the `TPZEAExtension` this plugin registers; `parse_feed` entry point).

Python objects live on a heap and the claims quantify over object *identity*
(cached instances vs equal copies), so every domain object constructed during
a parse is stamped with a fresh allocation number `objId` drawn from the
parse state; identity of two references is equality of their `objId`.
References held inside other objects (a comment's parent, a post's author)
are recorded as the referenced object's `objId` where only identity matters.
-/

/-- A decoded `zine.importers.Author` (external constructor; fields in the
positional order `_get_author` fills them). -/
structure DAuthor where
  objId : Nat
  username : Option String
  email : Option String
  realName : Option String
  description : Option String
  www : Option String
  pwHash : Option String
  isManager : Bool
  extra : Option PickleDict
deriving Repr, DecidableEq

/-- The author slot of a decoded comment: either the inline `tp:name` text
(a plain string — possibly `None`) or a resolved `Author` object. -/
inductive CAuthor where
  | name (s : Option String)
  | obj (objId : Nat)
deriving Repr, DecidableEq

/-- A decoded `zine.importers.Comment`; `parent` is set in the second
linking pass (`objId` of the parent comment object). -/
structure DComment where
  objId : Nat
  author : CAuthor
  body : String
  email : Option String
  www : Option String
  parent : Option Nat
  pubDate : Nat
  submitterIp : Option String
  parser : String
  isPingback : Bool
  status : Int
  blockedMsg : Option String
  parserData : Option String
deriving Repr, DecidableEq

/-- A decoded `zine.importers.Tag` (from `TPZEAExtension._parse_tag`). -/
structure DTag where
  objId : Nat
  term : String
  label : Option String
deriving Repr, DecidableEq

/-- A decoded `zine.importers.Category`. -/
structure DCat where
  objId : Nat
  term : String
  label : Option String
  description : Option String
deriving Repr, DecidableEq

/-- A decoded `zine.importers.Post`; `author` is the `objId` of the resolved
author object (identity is what the claims are about). -/
structure DPost where
  objId : Nat
  slug : Option String
  title : String
  link : Option String
  pubDate : Nat
  author : Nat
  intro : Option String
  body : Option String
  tags : List DTag
  categories : List DCat
  parser : String
  updated : Nat
  uid : Option String
  contentType : String
  comments : List DComment
deriving Repr, DecidableEq

/-- The decoded `zine.importers.Blog`. -/
structure Blog where
  title : Option String
  url : Option String
  subtitle : Option String
  lang : String
  tags : List DTag
  categories : List DCat
  posts : List DPost
  authors : List DAuthor
  configuration : List (String × Option String)
deriving Repr, DecidableEq

/-- Parse-time context fixed at parser construction: the extension's
`self._dependencies = root.find(textpress.dependencies)`, the application's
registered parsers (`get_application().parsers`, external registry modelled
as containing the default `html` parser) and privileges (external registry,
modelled empty: `privileges.get` returns `None` and no privilege is added). -/
structure PCtx where
  deps : Option Node
  parsers : List String
deriving Repr, DecidableEq

/-- Mutable parse state: the allocation counter, the parser-level lists
(`self.tags`, `self.categories`, `self.authors`) and caches
(`_categories_by_term`, `_authors_by_username`, `_authors_by_email`), and
the extension-level caches (`TPZEAExtension._authors/_tags/_categories`). -/
structure PSt where
  nextObj : Nat
  tags : List DTag
  categories : List DCat
  authors : List DAuthor
  catsByTerm : List (String × DCat)
  authorsByUsername : List (String × DAuthor)
  authorsByEmail : List (String × DAuthor)
  extAuthors : List (String × DAuthor)
  extTags : List (String × DTag)
  extCategories : List (String × DCat)
deriving Repr, DecidableEq

def initPSt : PSt := ⟨0, [], [], [], [], [], [], [], [], []⟩

/-- Allocate a fresh object identity. -/
def fresh (st : PSt) : Nat × PSt :=
  (st.nextObj, { st with nextObj := st.nextObj + 1 })

/-- Python dict assignment `d[k] = v`: overwrite in place, else append. -/
def assocSet [BEq α] (l : List (α × β)) (k : α) (v : β) : List (α × β) :=
  if l.any (fun e => e.1 == k) then
    l.map (fun e => if e.1 == k then (k, v) else e)
  else l ++ [(k, v)]

/-- Modelled from the spec: `zine.utils.xml.to_text` (external) extracts an
element's text content; the protocol elements it is applied to carry plain
text and no element children, so it is the node's own text. -/
def to_text (n : Node) : String := n.text.getD ""

/-- `_get_text_content` from `textpress_importer/__init__.py`. -/
def getTextContent (els : List Node) : String :=
  match els with
  | [] => ""
  | e0 :: _ =>
    match els.find? (fun e => attribGet e "type" == some "text") with
    | some e => e.text.getD ""
    | none =>
      match els.find? (fun e => attribGet e "type" == some "html") with
      | some e => to_text e
      | none => to_text e0

/-- `_get_html_content` from `textpress_importer/__init__.py`: note it
returns the raw `.text` (which may be `None`), or `u''` for no match. -/
def getHtmlContent (els : List Node) : Option String :=
  match els with
  | [] => some ""
  | e0 :: _ =>
    match els.find? (fun e => attribGet e "type" == some "html") with
    | some e => e.text
    | none => e0.text

/-- `TPZEAExtension._get_author` (lines 384–404): consult the `_authors`
cache first; on a miss, locate the canonical `tp:user` element carrying the
matching `tp:dependency` attribute inside the document's dependencies block
(the compiled XPath `tp:user[@tp:dependency=$id]`; indexing `[0]` raises
`IndexError` when nothing matches, and running the XPath on a `None`
dependencies block raises `TypeError`), construct the `Author`, cache it
under the dependency id and append it to `self.parser.authors`.  The
privilege loop consults the external (modelled empty) privilege registry and
adds nothing. -/
def getAuthorDep (ctx : PCtx) (st : PSt) (dep : String) :
    Except PyError (DAuthor × PSt) :=
  match st.extAuthors.find? (fun e => e.1 == dep) with
  | some e => .ok (e.2, st)
  | none =>
    match ctx.deps with
    | none => .error (.typeError "XPath evaluation on None")
    | some depsNode =>
      match depsNode.children.filter
          (fun c => c.tag == tpTag "user" &&
            attribGet c (tpTag "dependency") == some dep) with
      | [] => .error .indexError
      | el :: _ => do
        let role ←
          match findtext el (tpTag "role") with
          | none => Except.ok (0 : Int)
          | some s => if s = "" then Except.ok (0 : Int) else pyInt s
        let extra ← pickleOpt (findtext el (tpTag "extra"))
        let (oid, st) := fresh st
        let a : DAuthor :=
          { objId := oid,
            username := findtext el (tpTag "username"),
            email := findtext el (tpTag "email"),
            realName := findtext el (tpTag "real_name"),
            description := findtext el (tpTag "description"),
            www := findtext el (tpTag "www"),
            pwHash := findtext el (tpTag "pw_hash"),
            isManager := role == 4,
            extra := extra }
        .ok (a, { st with
          extAuthors := st.extAuthors ++ [(dep, a)],
          authors := st.authors ++ [a] })

/-- `TPZEAExtension.lookup_author`: resolve via the *namespaced*
`tp:dependency` attribute of the entry's `atom:author` element. -/
def lookup_author (ctx : PCtx) (st : PSt) (authorEl : Node) :
    Except PyError (Option DAuthor × PSt) :=
  match attribGet authorEl (tpTag "dependency") with
  | some dep => do
    let (a, st) ← getAuthorDep ctx st dep
    .ok (some a, st)
  | none => .ok (none, st)

/-- The `_remember_author` closure of `AtomParser.parse_author`. -/
def rememberAuthor (st : PSt) (a : DAuthor) : PSt :=
  let st :=
    match a.email with
    | some e =>
      if (st.authorsByEmail.find? (fun p => p.1 == e)).isNone then
        { st with authorsByEmail := st.authorsByEmail ++ [(e, a)] }
      else st
    | none => st
  match a.username with
  | some u =>
    if (st.authorsByUsername.find? (fun p => p.1 == u)).isNone then
      { st with authorsByUsername := st.authorsByUsername ++ [(u, a)] }
    else st
  | none => st

/-- `AtomParser.parse_author` (lines 235–263): extension lookup first (the
registered TPZEA extension), then the by-email / by-username caches, else a
fresh two-field `Author` remembered and appended to `self.authors`. -/
def parse_author (ctx : PCtx) (st : PSt) (entry : Node) :
    Except PyError (DAuthor × PSt) := do
  let authorEl ←
    match findChild entry (atomTag "author") with
    | none => Except.error (.attributeError "NoneType object has no attribute findtext")
    | some a => Except.ok a
  let email := findtext authorEl (atomTag "email")
  let username := findtext authorEl (atomTag "name")
  let (rv, st) ← lookup_author ctx st authorEl
  match rv with
  | some a => .ok (a, rememberAuthor st a)
  | none =>
    match email.bind (fun e => st.authorsByEmail.find? (fun p => p.1 == e)) with
    | some p => .ok (p.2, st)
    | none =>
      match username.bind (fun u => st.authorsByUsername.find? (fun p => p.1 == u)) with
      | some p => .ok (p.2, st)
      | none =>
        let (oid, st) := fresh st
        let a : DAuthor :=
          { objId := oid, username := username, email := email,
            realName := none, description := none, www := none,
            pwHash := none, isManager := false, extra := none }
        let st := rememberAuthor st a
        let st := { st with authors := st.authors ++ [a] }
        .ok (a, st)

/-- `TPZEAExtension._parse_tag`: per-term extension cache. -/
def parseTagExt (st : PSt) (el : Node) : Except PyError (DTag × PSt) := do
  let term ←
    match attribGet el "term" with
    | none => Except.error (.keyError "term")
    | some t => Except.ok t
  match st.extTags.find? (fun p => p.1 == term) with
  | some p => .ok (p.2, st)
  | none =>
    let (oid, st) := fresh st
    let t : DTag := { objId := oid, term := term, label := attribGet el "label" }
    .ok (t, { st with extTags := st.extTags ++ [(term, t)] })

/-- `TPZEAExtension._parse_category`: per-term extension cache; the
category additionally reads the `tp:description` child. -/
def parseCategoryExt (st : PSt) (el : Node) : Except PyError (DCat × PSt) := do
  let term ←
    match attribGet el "term" with
    | none => Except.error (.keyError "term")
    | some t => Except.ok t
  match st.extCategories.find? (fun p => p.1 == term) with
  | some p => .ok (p.2, st)
  | none =>
    let (oid, st) := fresh st
    let c : DCat :=
      { objId := oid, term := term, label := attribGet el "label",
        description := findtext el (tpTag "description") }
    .ok (c, { st with extCategories := st.extCategories ++ [(term, c)] })

/-- Result of `TPZEAExtension.tag_or_category`. -/
inductive TagOrCat where
  | tag (t : DTag)
  | cat (c : DCat)
deriving Repr, DecidableEq

/-- `TPZEAExtension.tag_or_category`: dispatch on the `scheme` attribute. -/
def tag_or_category (st : PSt) (el : Node) :
    Except PyError (Option TagOrCat × PSt) :=
  match attribGet el "scheme" with
  | some s =>
    if s = TEXTPRESS_TAG_URI then do
      let (t, st) ← parseTagExt st el
      .ok (some (.tag t), st)
    else if s = TEXTPRESS_CATEGORY_URI then do
      let (c, st) ← parseCategoryExt st el
      .ok (some (.cat c), st)
    else .ok (none, st)
  | none => .ok (none, st)

/-- The `_remember_category` closure of `AtomParser.parse_categories`
(reads `element.attrib['term']` again — `KeyError` when absent). -/
def rememberCategory (st : PSt) (c : DCat) (el : Node) : Except PyError PSt := do
  let term ←
    match attribGet el "term" with
    | none => Except.error (.keyError "term")
    | some t => Except.ok t
  if (st.catsByTerm.find? (fun p => p.1 == term)).isNone then
    .ok { st with catsByTerm := st.catsByTerm ++ [(term, c)] }
  else .ok st

/-- `AtomParser.parse_categories` (lines 265–295): each `atom:category`
child is first offered to the extension; a claimed `Category` is also
remembered in the parser-level term cache; unclaimed elements fall back to
the parser's own per-term cache / fresh `Category(term, label)`. -/
def parse_categories (st : PSt) (entry : Node) :
    Except PyError ((List DTag × List DCat) × PSt) := do
  let step := fun (acc : (List DTag × List DCat) × PSt) (el : Node) => do
    let ((tags, cats), st) := acc
    let (rv, st) ← tag_or_category st el
    match rv with
    | some (.cat c) => do
      let st ← rememberCategory st c el
      Except.ok ((tags, cats ++ [c]), st)
    | some (.tag t) => Except.ok ((tags ++ [t], cats), st)
    | none => do
      let term ←
        match attribGet el "term" with
        | none => Except.error (.keyError "term")
        | some t => Except.ok t
      match st.catsByTerm.find? (fun p => p.1 == term) with
      | some p => Except.ok ((tags, cats ++ [p.2]), st)
      | none => do
        let (oid, st) := fresh st
        let c : DCat :=
          { objId := oid, term := term, label := attribGet el "label",
            description := none }
        let st ← rememberCategory st c el
        let st := { st with categories := st.categories ++ [c] }
        Except.ok ((tags, cats ++ [c]), st)
  (findall entry (atomTag "category")).foldlM step (([], []), st)

/-- First pass of `TPZEAExtension.parse_comments` for one `tp:comment`
element: returns the comment's wire id, the constructed `Comment` object, the
declared parent id when the buggy guard admits one, and the updated state.
Modelled slips, in source order:
* `dependency = author.attrib.get('dependency')` reads the *un-namespaced*
  attribute name (unlike `lookup_author`, which reads `tp:dependency`), so a
  namespaced reference is silently treated as an inline author;
* when the plain attribute *is* present, `self._get_author(author)` passes
  the author *element* where `_get_author` expects an id string: the cache
  lookup misses and the XPath `@tp:dependency=$id` comparison against a
  node-set parameter matches nothing, so the `[0]` index raises
  `IndexError`;
* a comment without a `tp:data` child leaves `comment_parser` unbound and
  the `Comment(...)` call raises `NameError` (after the published timestamp
  argument has been evaluated);
* `if parent is not None or '':` parses as `(parent is not None) or ''`, so
  the empty `tp:parent` text the exporter emits for a top-level comment
  enters the branch and `int('')` raises `ValueError`. -/
def parseOneComment (ctx : PCtx) (st : PSt) (el : Node) :
    Except PyError (Int × DComment × Option Int × PSt) := do
  let authorEl ←
    match findChild el (tpTag "author") with
    | none => Except.error (.attributeError "NoneType object has no attribute attrib")
    | some a => Except.ok a
  let inlineAuthor ←
    match attribGet authorEl "dependency" with
    | some _ => Except.error PyError.indexError
    | none =>
      Except.ok (CAuthor.name (findtext authorEl (tpTag "name")),
        findtext authorEl (tpTag "email"),
        findtext authorEl (tpTag "uri"))
  match findall el (tpTag "data") with
  | [] => do
    let _ ← parse_iso8601 (findtext el (tpTag "published"))
    Except.error (.nameError "name comment_parser is not defined")
  | b :: _ => do
    let pickled ← pickleOpt b.text
    let pickled ←
      match pickled with
      | none => Except.error (.attributeError "NoneType object has no attribute get")
      | some d => Except.ok d
    let body := pickled.get "raw_body" ""
    let commentParser0 := pickled.get "parser" "html"
    let commentParser :=
      if ctx.parsers.contains commentParser0 then commentParser0 else "html"
    let pub ← parse_iso8601 (findtext el (tpTag "published"))
    let ip := findtext el (tpTag "submitter_ip")
    let isPb ← to_bool (findtext el (tpTag "is_pingback"))
    let status ← pyIntOpt (findtext el (tpTag "status"))
    let bmsg := findtext el (tpTag "blocked_msg")
    let pdata := parser_data_of (findtext el (tpTag "parser_data"))
    let (oid, st) := fresh st
    let comment : DComment :=
      { objId := oid, author := inlineAuthor.1, body := body,
        email := inlineAuthor.2.1, www := inlineAuthor.2.2, parent := none,
        pubDate := pub, submitterIp := ip, parser := commentParser,
        isPingback := isPb, status := status, blockedMsg := bmsg,
        parserData := pdata }
    let cid ← pyIntOpt (findtext el (tpTag "id"))
    let parentDecl ←
      match findtext el (tpTag "parent") with
      | some ptxt => do
        let pid ← pyInt ptxt
        Except.ok (some pid)
      | none => Except.ok (none : Option Int)
    .ok (cid, comment, parentDecl, st)

/-- The element loop of `TPZEAExtension.parse_comments`: build the
`comments` dict (wire id → comment object, insertion-ordered small-int-keyed
dict) and the `unresolved_parents` mapping (comment object → declared parent
id). -/
def commentsPhase1 (ctx : PCtx) :
    PSt → List Node → List (Int × DComment) → List (Nat × Int) →
    Except PyError (List (Int × DComment) × List (Nat × Int) × PSt)
  | st, [], cmts, unres => .ok (cmts, unres, st)
  | st, el :: rest, cmts, unres => do
    let (cid, c, pdecl, st') ← parseOneComment ctx st el
    let cmts' := assocSet cmts cid c
    let unres' :=
      match pdecl with
      | some pid => unres ++ [(c.objId, pid)]
      | none => unres
    commentsPhase1 ctx st' rest cmts' unres'

/-- The second pass of `TPZEAExtension.parse_comments` (lines 480–481):
`comment.parent = comments[parent_id]` — a dict subscript, so an id that was
never parsed raises `KeyError` (not `FeedImportError`).  Setting `.parent`
mutates the comment object held in the `comments` dict.  The Python dict is
keyed by comment objects (identity hash, iteration order unspecified);
modelled in insertion order — the claims only depend on whether some lookup
misses, which is order-independent. -/
def resolveParents :
    List (Nat × Int) → List (Int × DComment) →
    Except PyError (List (Int × DComment))
  | [], cmts => .ok cmts
  | (objRef, pid) :: rest, cmts =>
    match cmts.find? (fun e => e.1 == pid) with
    | none => .error (.keyError (toString pid))
    | some parentEntry =>
      resolveParents rest
        (cmts.map (fun e =>
          if e.2.objId == objRef then (e.1, { e.2 with parent := some parentEntry.2.objId })
          else e))

/-- `TPZEAExtension.parse_comments` (lines 442–483): phase 1 over the
post element's `tp:comment` children, then the parent-linking pass, then
`comments.values()`. -/
def parse_comments_ext (ctx : PCtx) (st : PSt) (postEl : Node) :
    Except PyError (List DComment × PSt) := do
  let (cmts, unres, st') ← commentsPhase1 ctx st (findall postEl (tpTag "comment")) [] []
  let resolved ← resolveParents unres cmts
  .ok (resolved.map (fun e => e.2), st')

/-- `AtomParser.parse_post` (lines 180–233): timestamps, categories, link,
the unguarded `entry.findall(textpress.data)[0]` payload access (the
`IndexError` of claim C10), author resolution, `Post(...)` construction,
the `content_type` fixup, comment parsing via the extension, and the
extension's `postprocess_post`.  Fallible steps appear in Python evaluation
order. -/
def parse_post (ctx : PCtx) (st : PSt) (entry : Node) :
    Except PyError (DPost × PSt) := do
  let updated ← parse_iso8601 (findtext entry (atomTag "updated"))
  let published ←
    match findtext entry (atomTag "published") with
    | some s => parse_iso8601 (some s)
    | none => Except.ok updated
  let ((tags, cats), st) ← parse_categories st entry
  let link := (findChild entry (atomTag "link")).bind (fun l => attribGet l "href")
  match findall entry (tpTag "data") with
  | [] => .error .indexError
  | d :: _ => do
    let pickled ← pickleOpt d.text
    let pickled ←
      match pickled with
      | none => Except.error (.attributeError "NoneType object has no attribute get")
      | some x => Except.ok x
    let postParser0 := pickled.get "parser" "html"
    let postParser :=
      if ctx.parsers.contains postParser0 then postParser0 else "html"
    let (author, st) ← parse_author ctx st entry
    let (oid, st) := fresh st
    let post0 : DPost :=
      { objId := oid,
        slug := findtext entry (tpTag "slug"),
        title := getTextContent (findall entry (atomTag "title")),
        link := link,
        pubDate := published,
        author := author.objId,
        intro := getHtmlContent (findall entry (atomTag "summary")),
        body := getHtmlContent (findall entry (atomTag "content")),
        tags := tags,
        categories := cats,
        parser := postParser,
        updated := updated,
        uid := findtext entry (atomTag "id"),
        contentType := "entry",
        comments := [] }
    let ct := findtext entry (tpTag "content_type")
    let post1 :=
      if ct = some "page" ∨ ct = some "entry" then post0
      else { post0 with contentType := "entry" }
    let (cmts, st) ← parse_comments_ext ctx st entry
    let post2 := { post1 with comments := post1.comments ++ cmts }
    let post3 :=
      match findtext entry (tpTag "content_type") with
      | some c => { post2 with contentType := c }
      | none => post2
    .ok (post3, st)

/-- The entry loop of `AtomParser.parse`. -/
def parseEntries (ctx : PCtx) :
    PSt → List Node → Except PyError (List DPost × PSt)
  | st, [] => .ok ([], st)
  | st, e :: rest => do
    let (p, st') ← parse_post ctx st e
    let (ps, st'') ← parseEntries ctx st' rest
    .ok (p :: ps, st'')

/-- `TPZEAExtension._parse_config` applied by `handle_root`: the `tp:item`
children of the `tp:configuration` block (`element.attrib['key']` raises
`KeyError` when absent; values are the raw `.text`, possibly `None`;
repeated keys overwrite dict-style). -/
def parseConfig (el : Option Node) : Except PyError (List (String × Option String)) :=
  match el with
  | none => .ok []
  | some c =>
    (findall c (tpTag "item")).foldlM
      (fun acc it => do
        let k ←
          match attribGet it "key" with
          | none => Except.error (.keyError "key")
          | some k => Except.ok k
        Except.ok (assocSet acc k it.text))
      []

/-- `AtomParser.parse` for a feed tree with the TPZEA extension active
(`parse_feed` constructs the parser, which instantiates the registered
extension with `self._dependencies = root.find(textpress.dependencies)`,
then parses every `atom:entry` child and builds the `Blog`, finally letting
the extension `handle_root` merge the configuration block). -/
def atomParse (tree : Node) : Except PyError Blog := do
  let ctx : PCtx := { deps := findChild tree (tpTag "dependencies"), parsers := ["html"] }
  let (posts, st) ← parseEntries ctx initPSt (findall tree (atomTag "entry"))
  let config ← parseConfig (findChild tree (tpTag "configuration"))
  .ok { title := findtext tree (atomTag "title"),
        url := findtext tree (atomTag "link"),
        subtitle := findtext tree (atomTag "subtitle"),
        lang := (attribGet tree xmlLangAttr).getD "en",
        tags := st.tags,
        categories := st.categories,
        posts := posts,
        authors := st.authors,
        configuration := config }

/-- `parse_feed` (lines 91–101): dispatch on the root tag — a plain `rss`
root constructs `RSSParser`, whose `__init__` immediately raises the
unsupported-variant `FeedImportError`; an Atom-namespace `feed` root parses;
anything else raises the unknown-feed `FeedImportError`. -/
def parse_feed (tree : Node) : Except PyError Blog :=
  if tree.tag = "rss" then
    .error (.feedImportError "Importing of RSS feeds is currently not possible.")
  else if tree.tag = atomTag "feed" then atomParse tree
  else .error (.feedImportError "Unknown feed uploaded.")

/-- Export a blog graph with the `Writer`, reassemble the produced chunk text
into the document tree, and decode it with `parse_feed`. -/
def roundTrip (g : GenInput) : Except PyError Blog :=
  parse_feed (assembleFeed (generate g).1)

/-!
Concrete instances used by the claim theorems.
-/

/-- User A of the round-trip scenario (a manager, referenced by both posts). -/
def userA : WUser :=
  { userId := 1, username := "alice", role := 4, pwHash := "hashA",
    displayName := "Alice", firstName := "Al", lastName := "Ice",
    description := "descA", email := "alice@example.org", isManager := true }

/-- User B of the round-trip scenario (registered, never referenced). -/
def userB : WUser :=
  { userId := 2, username := "bob", role := 1, pwHash := "hashB",
    displayName := "Bob", firstName := "Bo", lastName := "Bb",
    description := "descB", email := "bob@example.org", isManager := false }

/-- Third user for the dependency-order counterexample. -/
def userC : WUser :=
  { userId := 3, username := "carol", role := 1, pwHash := "hashC",
    displayName := "Carol", firstName := "Ca", lastName := "Rol",
    description := "descC", email := "carol@example.org", isManager := false }

/-- Top-level comment C1 of scenario post P1. -/
def wCommentC1 : WComment :=
  { commentId := 1, author := "carol", email := some "carol@example.org",
    www := none, pubDate := 160, blocked := false, isPingback := false,
    blockedMsg := none, parentId := none, status := 1,
    submitterIp := some "1.2.3.4", rawBody := "cb1", parserData := "cpd1" }

/-- Child comment C2 of scenario post P1 (parent is C1). -/
def wCommentC2 : WComment :=
  { commentId := 2, author := "dave", email := some "dave@example.org",
    www := none, pubDate := 170, blocked := false, isPingback := false,
    blockedMsg := none, parentId := some 1, status := 1,
    submitterIp := some "1.2.3.5", rawBody := "cb2", parserData := "cpd2" }

/-- The described tag with a description (emitted category-scheme under the
default options). -/
def tagNews : WTag := { slug := "news", name := "News", description := "current events" }

/-- Scenario post P1 (newest; two comments, one category-scheme tag). -/
def postP1 : WPost :=
  { title := "First", uid := "uid1", lastUpdate := 200, pubDate := 150,
    author := userA, slug := "first", postId := 1, commentsEnabled := true,
    pingsEnabled := false, status := 1, bodyRendered := "<p>b1</p>",
    intro := some "<p>i1</p>", extra := "x1", rawBody := "b1raw",
    rawIntro := "i1raw", parserData := "pd1", tags := [tagNews],
    comments := [wCommentC1, wCommentC2] }

/-- Scenario post P2 (older; also authored by A). -/
def postP2 : WPost :=
  { title := "Second", uid := "uid2", lastUpdate := 100, pubDate := 90,
    author := userA, slug := "second", postId := 2, commentsEnabled := true,
    pingsEnabled := true, status := 1, bodyRendered := "<p>b2</p>",
    intro := none, extra := "x2", rawBody := "b2raw", rawIntro := "",
    parserData := "pd2", tags := [], comments := [] }

/-- Application config present in every concrete export. -/
def baseCfg : List (String × String) :=
  [("blog_title", "My Blog"), ("blog_tagline", "tag line"),
   ("blog_url", "http://blog.example/")]

/-- The C1 scenario graph: users A and B, posts P1 (2 comments, category
"news") and P2, both by A; pages plugin active with zero pages; no
participants; default category options. -/
def c1Scenario : GenInput :=
  { cfgItems := baseCfg, version := "0.1", users := [userA, userB],
    posts := [postP1, postP2], pages := some [], participants := [],
    now := 1000, description_to_category := true, tags_to_categories := false,
    keep_as_tags := [] }

/-- Three-user export for the dependency-order counterexample. -/
def c2Input : GenInput :=
  { cfgItems := baseCfg, version := "0.1", users := [userA, userB, userC],
    posts := [], pages := some [], participants := [], now := 1000,
    description_to_category := true, tags_to_categories := false,
    keep_as_tags := [] }

/-- Single-user export for the C2 witness. -/
def c2WitnessInput : GenInput :=
  { cfgItems := baseCfg, version := "0.1", users := [userA], posts := [],
    pages := some [], participants := [], now := 1000,
    description_to_category := true, tags_to_categories := false,
    keep_as_tags := [] }

/-- Zero posts, zero users, pages plugin active with zero pages: the
empty-graph edge case of C3. -/
def c3EmptyInput : GenInput :=
  { cfgItems := baseCfg, version := "0.1", users := [], posts := [],
    pages := some [], participants := [], now := 1000,
    description_to_category := true, tags_to_categories := false,
    keep_as_tags := [] }

/-- One post, pages plugin active with zero pages: the C3 failing input. -/
def c3Input : GenInput :=
  { cfgItems := baseCfg, version := "0.1", users := [], posts := [postP1],
    pages := some [], participants := [], now := 1000,
    description_to_category := true, tags_to_categories := false,
    keep_as_tags := [] }

/-- An export with one participant that only provides the base-class default
hooks: the C7 failing input. -/
def c7Input : GenInput :=
  { cfgItems := baseCfg, version := "0.1", users := [], posts := [],
    pages := some [], participants := [⟨false, none⟩], now := 1000,
    description_to_category := true, tags_to_categories := false,
    keep_as_tags := [] }

/-- Encoded payload used by the hand-built comment elements. -/
def cDataText : String := pickleDumps ⟨[("raw_body", "x"), ("parser_data", "pd")]⟩

/-- A hand-built comment element: inline author, valid fields, declared
parent id 7 that no comment in the document carries — the C4 failing input. -/
def c4CommentEl : Node :=
  ⟨tpTag "comment", [], none,
    [ mkTextEl (tpTag "id") "1",
      ⟨tpTag "author", [], none, [mkTextEl (tpTag "name") "Zed"]⟩,
      mkTextEl (tpTag "data") cDataText,
      mkTextEl (tpTag "published") "5Z",
      mkTextEl (tpTag "is_pingback") "no",
      mkTextEl (tpTag "status") "1",
      mkTextEl (tpTag "blocked_msg") "spam",
      mkTextEl (tpTag "submitter_ip") "1.1.1.1",
      mkTextEl (tpTag "parent") "7" ]⟩

/-- Entry holding the dangling-parent comment. -/
def c4PostEl : Node := ⟨atomTag "entry", [], none, [c4CommentEl]⟩

/-- Same comment but with the empty `tp:parent` text the exporter emits for
a top-level comment — the C5 failing input. -/
def c5CommentEl : Node :=
  ⟨tpTag "comment", [], none,
    [ mkTextEl (tpTag "id") "1",
      ⟨tpTag "author", [], none, [mkTextEl (tpTag "name") "Zed"]⟩,
      mkTextEl (tpTag "data") cDataText,
      mkTextEl (tpTag "published") "5Z",
      mkTextEl (tpTag "is_pingback") "no",
      mkTextEl (tpTag "status") "1",
      mkTextEl (tpTag "blocked_msg") "",
      mkTextEl (tpTag "submitter_ip") "1.1.1.1",
      mkTextEl (tpTag "parent") "" ]⟩

def c5PostEl : Node := ⟨atomTag "entry", [], none, [c5CommentEl]⟩

/-- A canonical dependency-table user element with id `"1"`. -/
def depUserEl : Node :=
  ⟨tpTag "user", [(tpTag "dependency", "1")], none,
    [ mkTextEl (tpTag "username") "alice",
      mkTextEl (tpTag "role") "4",
      mkTextEl (tpTag "pw_hash") "b64:hashA",
      mkTextEl (tpTag "display_name") "Alice",
      mkTextEl (tpTag "first_name") "Al",
      mkTextEl (tpTag "last_name") "Ice",
      mkTextEl (tpTag "description") "descA" ]⟩

/-- Dependencies block holding the canonical user `"1"`. -/
def c6DepsEl : Node := ⟨tpTag "dependencies", [], none, [depUserEl]⟩

/-- A comment whose author carries the extension-namespace `tp:dependency`
attribute with id `"1"` (plus inline fields) — the C6 failing input. -/
def c6CommentEl : Node :=
  ⟨tpTag "comment", [], none,
    [ mkTextEl (tpTag "id") "1",
      ⟨tpTag "author", [(tpTag "dependency", "1")], none,
        [mkTextEl (tpTag "name") "Eve"]⟩,
      mkTextEl (tpTag "data") cDataText,
      mkTextEl (tpTag "published") "5Z",
      mkTextEl (tpTag "is_pingback") "no",
      mkTextEl (tpTag "status") "1",
      mkTextEl (tpTag "blocked_msg") "",
      mkTextEl (tpTag "submitter_ip") "1.1.1.1" ]⟩

def c6PostEl : Node := ⟨atomTag "entry", [], none, [c6CommentEl]⟩

/-- Parse context with an empty dependencies block. -/
def ctxEmptyDeps : PCtx :=
  { deps := some ⟨tpTag "dependencies", [], none, []⟩, parsers := ["html"] }

/-- Parse context whose dependencies block holds user `"1"`. -/
def ctxC6 : PCtx := { deps := some c6DepsEl, parsers := ["html"] }

/-- Chunks strictly between `depsOpen` and `depsClose`. -/
def depsSection (cs : List Chunk) : List Chunk :=
  ((cs.dropWhile (fun c => c ≠ Chunk.depsOpen)).drop 1).takeWhile
    (fun c => c ≠ Chunk.depsClose)

/-- The `updated` value of the preamble chunk, when present. -/
def preambleUpdated (cs : List Chunk) : Option String :=
  cs.findSome? (fun c =>
    match c with
    | .preamble _ _ _ _ upd _ => some upd
    | _ => none)

/-- Does a chunk carry an `atom:entry` node? -/
def isEntryChunk (c : Chunk) : Bool :=
  match c with
  | .node n => n.tag == atomTag "entry"
  | _ => false

/-- Is a chunk the configuration-block node? -/
def isConfigChunk (c : Chunk) : Bool :=
  match c with
  | .node n => n.tag == tpTag "configuration"
  | _ => false


/-- A page, so the scenario export keeps its posts (the coupled iterator
advance only drops the newest post when the page iterator is empty). -/
def page1 : WPage :=
  { pageId := 1, title := "About", key := "about", bodyRendered := "<p>a</p>",
    extra := "px", rawBody := "praw" }

/-- The C1 scenario graph exported with one page present. -/
def c1ScenarioWithPage : GenInput :=
  { c1Scenario with pages := some [page1] }


/-- Does the first pass of `TPZEAExtension.parse_comments` over this post
element succeed while leaving some declared parent id that matches no parsed
comment id (a dangling reference)? -/
def danglingCheck (ctx : PCtx) (st : PSt) (postEl : Node) : Bool :=
  match commentsPhase1 ctx st (findall postEl (tpTag "comment")) [] [] with
  | .ok (cmts, unres, _) => unres.any (fun pr => cmts.all (fun e => e.1 != pr.2))
  | .error _ => false

theorem keys_map_parentUpdate (cmts : List (Int × DComment)) (objRef : Nat) (q : Int) (pc : DComment) :
    ((cmts.map (fun e =>
        if e.2.objId == objRef then (e.1, { e.2 with parent := some pc.objId })
        else e)).all (fun e => e.1 != q)) = cmts.all (fun e => e.1 != q) := by
  induction cmts with
  | nil => rfl
  | cons x xs ih =>
    simp only [List.map_cons, List.all_cons, ih]
    by_cases hx : x.2.objId == objRef <;> simp [hx]

theorem resolveParents_dangling :
    ∀ (unres : List (Nat × Int)) (cmts : List (Int × DComment)),
    (unres.any (fun pr => cmts.all (fun e => e.1 != pr.2))) = true →
    ∃ k, resolveParents unres cmts = Except.error (.keyError k) := by
  intro unres
  induction unres with
  | nil => intro cmts h; simp at h
  | cons pr rest ih =>
    intro cmts h
    obtain ⟨objRef, pid⟩ := pr
    simp only [List.any_cons, Bool.or_eq_true] at h
    cases hf : cmts.find? (fun e => e.1 == pid) with
    | none =>
      exact ⟨toString pid, by simp [resolveParents, hf]⟩
    | some parentEntry =>
      have hMiss : rest.any (fun pr => cmts.all (fun e => e.1 != pr.2)) = true := by
        rcases h with h | h
        · exfalso
          have hmem := List.find?_some hf
          have hin := List.mem_of_find?_eq_some hf
          have := List.all_eq_true.mp h parentEntry hin
          simp only [bne_iff_ne, ne_eq] at this
          exact this (by simpa using hmem)
        · exact h
      simp only [resolveParents, hf]
      apply ih
      have hkeys : ∀ q : Int, ((cmts.map (fun e =>
          if e.2.objId == objRef then (e.1, { e.2 with parent := some parentEntry.2.objId })
          else e)).all (fun e => e.1 != q)) = cmts.all (fun e => e.1 != q) :=
        fun q => keys_map_parentUpdate cmts objRef q parentEntry.2
      apply List.any_eq_true.mpr
      obtain ⟨pr2, hmem, hp⟩ := List.any_eq_true.mp hMiss
      refine ⟨pr2, hmem, ?_⟩
      rw [hkeys pr2.2]
      exact hp

/-- Claim C4 (amended): for every post element and parse state, when the
first pass of `TPZEAExtension.parse_comments` succeeds but some comment
declares a parent numeric id matching no comment id parsed from the same
post element, the decode of that post's comments fails fatally — with a
`KeyError` from the dict subscript `comments[parent_id]`, not with a
`FeedImportError` — so no partial comment list with a dangling or silently
dropped parent pointer is ever returned. -/
theorem c4_amended : ∀ (ctx : PCtx) (st : PSt) (postEl : Node),
    danglingCheck ctx st postEl = true →
    ∃ k, parse_comments_ext ctx st postEl = Except.error (.keyError k) := by
  intro ctx st postEl h
  unfold danglingCheck at h
  cases hPh : commentsPhase1 ctx st (findall postEl (tpTag "comment")) [] [] with
  | error e => rw [hPh] at h; exact absurd h (by simp)
  | ok v =>
    obtain ⟨cmts, unres, st2⟩ := v
    rw [hPh] at h
    obtain ⟨k, hk⟩ := resolveParents_dangling unres cmts h
    refine ⟨k, ?_⟩
    unfold parse_comments_ext
    rw [hPh]
    simp only [bind, Except.bind]
    rw [hk]

/-- Witness for C4's amended theorem: the hand-built post element whose only
comment declares parent id 7 (no comment with id 7 exists) decodes to a
`KeyError`. -/
theorem c4_amended_witness :
    ∃ k, parse_comments_ext ctxEmptyDeps initPSt c4PostEl = Except.error (.keyError k) :=
  c4_amended ctxEmptyDeps initPSt c4PostEl (by decide)

/-- Counterexample to claim C4 as stated: the dangling-parent failure is a
`KeyError`, not the claimed `FeedImportError`. -/
theorem c4_counterexample :
    parse_comments_ext ctxEmptyDeps initPSt c4PostEl = Except.error (.keyError "7") ∧
    ¬ ∃ m, parse_comments_ext ctxEmptyDeps initPSt c4PostEl =
      Except.error (.feedImportError m) := by
  refine ⟨by decide, ?_⟩
  rintro ⟨m, hm⟩
  have h : parse_comments_ext ctxEmptyDeps initPSt c4PostEl =
      Except.error (.keyError "7") := by decide
  rw [h] at hm
  exact PyError.noConfusion (Except.error.inj hm)

/-- Claim C5: the comment element whose `tp:parent` text is empty — exactly
the encoding `Writer._dump_post` emits for a comment with no parent — does
not decode to a parentless comment; the guard `if parent is not None or '':`
admits the empty string and `int('')` raises `ValueError`. -/
theorem c5_failing_eval :
    findtext c5CommentEl (tpTag "parent") = some "" ∧
    parse_comments_ext ctxEmptyDeps initPSt c5PostEl =
      Except.error (.valueError "invalid literal for int() with base 10: ") := by
  exact ⟨by decide, by decide⟩

/-- Claim C6: a comment whose author element carries the extension-namespace
`tp:dependency` attribute with id "1" — with the canonical user "1" present
in the dependencies block — is *not* resolved to the canonical author:
`parse_comments` reads the un-namespaced `'dependency'` attribute, so the
reference is ignored, the comment's author stays the inline `tp:name` text,
and no author object is constructed or cached. -/
theorem c6_failing_eval :
    attribGet (⟨tpTag "author", [(tpTag "dependency", "1")], none,
      [mkTextEl (tpTag "name") "Eve"]⟩ : Node) (tpTag "dependency") = some "1" ∧
    (parse_comments_ext ctxC6 initPSt c6PostEl).map
      (fun r => (r.1.map (fun c => c.author), r.2.authors.length, r.2.extAuthors.length))
      = Except.ok ([CAuthor.name (some "Eve")], 0, 0) := by
  exact ⟨by decide, by decide⟩

/-- Claim C7: an export whose only registered participant provides just the
base-class default hooks dies before the configuration block is emitted:
`Writer._generate` calls `participant.setup()`, a method the `Participant`
base class does not define (it defines `before_dump`), so `AttributeError`
is raised right after the preamble and no configuration chunk is ever
yielded. -/
theorem c7_failing_eval :
    generate c7Input =
      ([Chunk.preamble "tag:http://blog.example/,ts-1000:tpxa_export/full"
          "My Blog" "tag line" "http://blog.example/" "1000Z" "0.1"],
       some (.attributeError "Participant instance has no attribute setup")) ∧
    ((generate c7Input).1.all (fun c => !isConfigChunk c)) = true ∧
    c7Input.participants = [⟨false, none⟩] := by
  exact ⟨by decide, by decide, by decide⟩

/-- Claim C3: with one post, the pages plugin active and zero pages, the
shared `StopIteration` handler of `Writer._generate` is entered after the
newest post was already consumed: the feed-level `updated` (and hence the
feed identifier) falls back to the export wall clock even though a content
item exists, and the consumed post is omitted — no `atom:entry` chunk is
emitted at all.  (The empty-graph half of the claim does hold: zero posts
and zero users give a successful export whose `updated` is the wall clock
and whose dependencies block is entirely absent.) -/
theorem c3_failing_eval :
    (c3Input.posts.length = 1 ∧
     (generate c3Input).2 = none ∧
     preambleUpdated ((generate c3Input).1) = some (format_iso8601 c3Input.now) ∧
     ((generate c3Input).1.all (fun c => !isEntryChunk c)) = true) ∧
    ((generate c3EmptyInput).2 = none ∧
     preambleUpdated ((generate c3EmptyInput).1) =
       some (format_iso8601 c3EmptyInput.now) ∧
     ((generate c3EmptyInput).1.all
       (fun c => c ≠ Chunk.depsOpen ∧ c ≠ Chunk.depsClose)) = true) := by
  exact ⟨⟨by decide, by decide, by decide, by decide⟩, by decide, by decide, by decide⟩

/-- Counterexample to claim C1 as stated: round-tripping the scenario graph
(users A and B; P1 by A with comments C1/C2 and the "news" category; P2 by
A; pages plugin active, zero pages) yields exactly 1 decoded author object
and only 1 post — not 2 authors. -/
theorem c1_counterexample :
    (roundTrip c1Scenario).map (fun b => (b.authors.length, b.posts.length)) =
      Except.ok (1, 1) ∧
    ¬ ∃ b, roundTrip c1Scenario = Except.ok b ∧ b.authors.length = 2 := by
  refine ⟨by decide, ?_⟩
  rintro ⟨b, hb, h2⟩
  have h1 : (roundTrip c1Scenario).map (fun b => (b.authors.length, b.posts.length)) =
      Except.ok (1, 1) := by decide
  rw [hb] at h1
  simp only [Except.map] at h1
  have := Except.ok.inj h1
  rw [h2] at this
  exact absurd (show (2 : Nat) = 1 from congrArg Prod.fst this) (by decide)

/-- Claim C1 (amended): encoding the scenario graph with the Writer and
decoding the result yields exactly 1 decoded author object and 1 decoded
post: the exporter's coupled posts/pages iterator advance silently drops the
newest post P1 when the page iterator is empty, and the decoder materialises
only dependency-referenced users, so only A (referenced by the surviving
post P2) is ever constructed — P2's decoded author is that canonical cached
object (`objId` 0, the same object stored in the blog's author list).
Moreover, when a page is present so that P1 *is* exported, decoding aborts
with a `ValueError` on C1's empty `tp:parent` field, so the claimed
2-author/parent-identity outcome is unreachable either way. -/
theorem c1_amended :
    (roundTrip c1Scenario).map (fun b =>
        (b.authors.length, b.posts.map (fun p => (p.uid, p.author)),
         b.authors.map (fun a => a.objId))) =
      Except.ok (1, [(some "uid2", 0)], [0]) ∧
    roundTrip c1ScenarioWithPage =
      Except.error (.valueError "invalid literal for int() with base 10: ") := by
  exact ⟨by decide, by decide⟩

/-- Writers differing only outside the three category options, used by the
C8 witness. -/
def c8g : GenInput := { c2Input with tags_to_categories := true }

/-- Same options as `c8g`, different users/config. -/
def c8g2 : GenInput :=
  { c2Input with tags_to_categories := true, users := [], cfgItems := [] }

/-- Claim C8: the tag/category scheme emitted for a tag is a deterministic
function of the tag and the three export options — two writers agreeing on
`description_to_category`, `tags_to_categories` and `keep_as_tags` build the
identical category attributes for any tag — and whenever
`tags_to_categories` is set, every tag whose slug is not in the keep-as-tags
list gets the category scheme URI. -/
theorem c8_scheme :
    (∀ (g g2 : GenInput) (t : WTag),
      g.description_to_category = g2.description_to_category →
      g.tags_to_categories = g2.tags_to_categories →
      g.keep_as_tags = g2.keep_as_tags →
      categoryAttrib g t = categoryAttrib g2 t) ∧
    (∀ (g : GenInput) (t : WTag),
      g.tags_to_categories = true →
      g.keep_as_tags.contains t.slug = false →
      (categoryAttrib g t).find? (fun p => p.1 == "scheme") =
        some ("scheme", TEXTPRESS_CATEGORY_URI)) := by
  constructor
  · intro g g2 t h1 h2 h3
    simp only [categoryAttrib, h1, h2, h3]
  · intro g t h1 h2
    simp only [categoryAttrib, h1, h2, Bool.or_true, Bool.not_false, Bool.and_true,
      Bool.true_and]
    by_cases hl : t.slug ≠ t.name <;> simp [hl, List.find?]

/-- Witness for C8: two concrete writers sharing options (one with users and
config, one without) agree on the attributes of the "news" tag, and with
`tags_to_categories` on and an empty keep list the tag gets the category
scheme. -/
theorem c8_scheme_witness :
    categoryAttrib c8g tagNews = categoryAttrib c8g2 tagNews ∧
    (categoryAttrib c8g tagNews).find? (fun p => p.1 == "scheme") =
      some ("scheme", TEXTPRESS_CATEGORY_URI) :=
  ⟨c8_scheme.1 c8g c8g2 tagNews (by decide) (by decide) (by decide),
   c8_scheme.2 c8g tagNews (by decide) (by decide)⟩

/-- Claim C9: `parse_feed` selects the variant from the root tag alone: a
root that is neither `rss` nor the Atom-namespace `feed` raises the
unknown-feed `FeedImportError`; a plain `rss` root raises the distinct
unsupported-variant `FeedImportError` (from `RSSParser.__init__`, not a
generic crash); only an Atom-namespace `feed` root proceeds to the Atom
parse. -/
theorem c9_root_dispatch : ∀ t : Node,
    (t.tag ≠ "rss" → t.tag ≠ atomTag "feed" →
      parse_feed t = Except.error (.feedImportError "Unknown feed uploaded.")) ∧
    (t.tag = "rss" →
      parse_feed t =
        Except.error (.feedImportError "Importing of RSS feeds is currently not possible.")) ∧
    (t.tag = atomTag "feed" → parse_feed t = atomParse t) := by
  intro t
  refine ⟨fun h1 h2 => ?_, fun h => ?_, fun h => ?_⟩
  · simp [parse_feed, h1, h2]
  · simp [parse_feed, h]
  · have hne : t.tag ≠ "rss" := by rw [h]; decide
    unfold parse_feed
    rw [if_neg hne, if_pos h]

/-- Root with an unknown tag for the C9 witness. -/
def unknownTree : Node := ⟨"opml", [], none, []⟩

/-- Plain `rss` root for the C9 witness. -/
def rssTree : Node := ⟨"rss", [], none, []⟩

/-- Empty Atom-namespace feed root for the C9 witness. -/
def atomEmptyTree : Node := ⟨atomTag "feed", [], none, []⟩

/-- Witness for C9 at the three concrete roots. -/
theorem c9_root_dispatch_witness :
    parse_feed unknownTree = Except.error (.feedImportError "Unknown feed uploaded.") ∧
    parse_feed rssTree =
      Except.error (.feedImportError "Importing of RSS feeds is currently not possible.") ∧
    parse_feed atomEmptyTree = atomParse atomEmptyTree :=
  ⟨(c9_root_dispatch unknownTree).1 (by decide) (by decide),
   (c9_root_dispatch rssTree).2.1 (by decide),
   (c9_root_dispatch atomEmptyTree).2.2 (by decide)⟩

/-- Claim C10: an entry element without any `tp:data` child makes
`AtomParser.parse_post` fail — the payload access
`entry.findall(textpress.data)[0]` is indexed unguarded — so a successful
decode requires every entry to carry at least one `tp:data` element and the
error branch of the index is unreachable on decodable documents. -/
theorem c10_missing_payload : ∀ (ctx : PCtx) (st : PSt) (entry : Node),
    findall entry (tpTag "data") = [] →
    ∃ e, parse_post ctx st entry = Except.error e := by
  intro ctx st entry h
  unfold parse_post
  rw [h]
  simp only [bind, Except.bind]
  repeat' split
  all_goals exact ⟨_, rfl⟩

/-- Entry with a timestamp but no `tp:data` child (C10 witness input). -/
def c10Entry : Node := ⟨atomTag "entry", [], none, [mkTextEl (atomTag "updated") "3Z"]⟩

/-- Witness for C10 at a concrete entry without `tp:data`. -/
theorem c10_missing_payload_witness :
    ∃ e, parse_post ctxEmptyDeps initPSt c10Entry = Except.error e :=
  c10_missing_payload ctxEmptyDeps initPSt c10Entry (by decide)

/-- Every chunk yielded by the entry/page loops is a `node` chunk. -/
theorem dumpChunksList_all_node {α : Type} (f : α → Except PyError Node) (l : List α) :
    ∀ c ∈ (dumpChunksList f l).1, ∃ n, c = Chunk.node n := by
  induction l with
  | nil => intro c hc; simp [dumpChunksList] at hc
  | cons x xs ih =>
    intro c hc
    simp only [dumpChunksList] at hc
    cases hf : f x with
    | error e => rw [hf] at hc; simp at hc
    | ok n =>
      rw [hf] at hc
      rcases hrec : dumpChunksList f xs with ⟨cs2, err⟩
      rw [hrec] at hc
      simp only at hc
      rcases List.mem_cons.mp hc with rfl | hc2
      · exact ⟨n, rfl⟩
      · exact ih c (by rw [hrec]; exact hc2)

/-- Counterexample to claim C2 as stated: registering three users gives the
dependency table ids `1`, `2`, `3` in that insertion order, but the emitted
dependencies block lists the canonical nodes in the dict's hash-bucket
iteration order `1`, `3`, `2` — not registration order. -/
theorem c2_counterexample :
    (depsSection ((generate c2Input).1)).length = 3 ∧
    depsSection ((generate c2Input).1) ≠
      (depTable c2Input).map (fun p => Chunk.node p.2) := by
  exact ⟨by decide, by decide⟩

/-- Claim C2 (amended): for every successful export, the chunk stream splits
as a prefix (preamble, configuration, plugin blocks, all entry and page
nodes — no dependency markers, no epilog) followed by the dependencies block
followed by the epilog; the block is empty exactly when no dependency was
registered, otherwise it is one `tp:dependencies` container wrapping the
canonical nodes in the dict's hash-bucket iteration order — a permutation of
the registered nodes, but not in general their registration order. -/
theorem c2_amended : ∀ (g : GenInput) (cs : List Chunk),
    generate g = (cs, none) →
    ∃ pre, cs = pre ++ depsChunks (depTable g) ++ [Chunk.epilog] ∧
      (∀ c ∈ pre, c ≠ Chunk.depsOpen ∧ c ≠ Chunk.depsClose ∧ c ≠ Chunk.epilog) ∧
      (depTable g = [] ↔ depsChunks (depTable g) = []) ∧
      (depTable g ≠ [] → depsChunks (depTable g) =
        Chunk.depsOpen :: (py2DictValues (depTable g)).map Chunk.node ++ [Chunk.depsClose]) ∧
      (py2DictValues (depTable g)).Perm ((depTable g).map (fun p => p.2)) := by
  intro g cs h
  have hPerm : (py2DictValues (depTable g)).Perm ((depTable g).map (fun p => p.2)) := by
    unfold py2DictValues
    exact (List.perm_insertionSort _ _).map _
  have hIff : depTable g = [] ↔ depsChunks (depTable g) = [] := by
    unfold depsChunks
    constructor
    · intro he; rw [he]; simp
    · intro he
      by_cases hn : (depTable g).isEmpty
      · simpa [List.isEmpty_iff] using hn
      · rw [if_neg hn] at he; simp at he
  have hNe : depTable g ≠ [] → depsChunks (depTable g) =
      Chunk.depsOpen :: (py2DictValues (depTable g)).map Chunk.node ++ [Chunk.depsClose] := by
    intro hne
    unfold depsChunks
    rw [if_neg (by simpa [List.isEmpty_iff] using hne)]
  unfold generate at h
  cases hIt : iterStart g with
  | error e => rw [hIt] at h; simp at h
  | ok trip =>
    obtain ⟨lastUpdate, postsOut, pagesVar⟩ := trip
    rw [hIt] at h
    simp only at h
    cases hPv : preVals g lastUpdate with
    | error e => rw [hPv] at h; simp at h
    | ok pv =>
      rw [hPv] at h
      simp only at h
      cases hFind : g.participants.find? (fun p => !p.definesSetup) with
      | some p0 => rw [hFind] at h; simp at h
      | none =>
        rw [hFind] at h
        simp only at h
        rcases hPost : dumpChunksList (dump_post g (g.users.foldl registerUser initWS)) postsOut
          with ⟨postCs, postErr⟩
        rw [hPost] at h
        simp only at h
        cases postErr with
        | some e => simp at h
        | none =>
          cases pagesVar with
          | none => simp at h
          | some pgs =>
            simp only at h
            rcases hPage : dumpChunksList (dump_page g (g.users.foldl registerUser initWS)) pgs
              with ⟨pageCs, pageErr⟩
            rw [hPage] at h
            simp only at h
            cases pageErr with
            | some e => simp at h
            | none =>
              simp only at h
              injection h with hcs _
              refine ⟨(Chunk.preamble pv.1 pv.2.1 pv.2.2.1 pv.2.2.2
                  (format_iso8601 lastUpdate) g.version ::
                  Chunk.node (configNode g.cfgItems) ::
                  (g.participants.filterMap (fun p => p.dumpData)).map Chunk.node)
                  ++ postCs ++ pageCs, ?_, ?_, hIff, hNe, hPerm⟩
              · rw [← hcs]
                unfold depTable
                simp [List.append_assoc]
              · intro c hc
                rcases List.mem_append.mp hc with hc12 | hcPage
                · rcases List.mem_append.mp hc12 with hc1 | hcPost
                  · rcases List.mem_cons.mp hc1 with rfl | hc1b
                    · exact ⟨by simp, by simp, by simp⟩
                    rcases List.mem_cons.mp hc1b with rfl | hc1c
                    · exact ⟨by simp, by simp, by simp⟩
                    obtain ⟨n, -, rfl⟩ := List.mem_map.mp hc1c
                    exact ⟨by simp, by simp, by simp⟩
                  · obtain ⟨n, rfl⟩ := dumpChunksList_all_node _ postsOut c
                      (by rw [hPost]; exact hcPost)
                    exact ⟨by simp, by simp, by simp⟩
                · obtain ⟨n, rfl⟩ := dumpChunksList_all_node _ pgs c
                    (by rw [hPage]; exact hcPage)
                  exact ⟨by simp, by simp, by simp⟩

/-- Witness for C2's amended theorem at a one-user export. -/
theorem c2_amended_witness :
    ∃ pre, (generate c2WitnessInput).1 =
        pre ++ depsChunks (depTable c2WitnessInput) ++ [Chunk.epilog] ∧
      (∀ c ∈ pre, c ≠ Chunk.depsOpen ∧ c ≠ Chunk.depsClose ∧ c ≠ Chunk.epilog) ∧
      (depTable c2WitnessInput = [] ↔ depsChunks (depTable c2WitnessInput) = []) ∧
      (depTable c2WitnessInput ≠ [] → depsChunks (depTable c2WitnessInput) =
        Chunk.depsOpen :: (py2DictValues (depTable c2WitnessInput)).map Chunk.node ++
          [Chunk.depsClose]) ∧
      (py2DictValues (depTable c2WitnessInput)).Perm
        ((depTable c2WitnessInput).map (fun p => p.2)) :=
  c2_amended c2WitnessInput ((generate c2WitnessInput).1) (by decide)
